import Mathlib

/-!
Verification of the Idea Evaluation & Promotion Engine of the
`adventhealth-frontend` dashboard.

The rubric classifier (`calculateRubricQuadrant`, `fetchAIRubric`) is embedded
from `src/adventhealth-frontend/src/App.tsx`.  JavaScript numbers are modelled
as exact rationals (ℚ); for the integer-valued dimension scores the claims are
about, the floating-point computation and the rational one agree on every
comparison made by the code, since all thresholds are separated from the
attainable score values by far more than the double-precision error.
-/

namespace Innovate

/-- The six rubric dimension keys, named as in the source record
`rubricScores` (App.tsx lines 292-299). -/
inductive RubricKey
  | emotional_needs
  | revenue_impact
  | drastic_change
  | pilot_complexity
  | people_build
  | technology_capex
  deriving DecidableEq, Repr

/-- The `rubricScores` record: a partial map from dimension keys to JS numbers.
`none` models a key absent from the record (JS `undefined`). -/
def RubricScores := RubricKey → Option ℚ

/-- Embedding of the JS expression `rubricScores[k] || 5` (App.tsx lines
324-325): an absent key gives `undefined` (falsy) and `0` is falsy, so both
are replaced by `5`; every other number passes through unchanged. -/
def dimOr5 (m : RubricScores) (k : RubricKey) : ℚ :=
  match m k with
  | none => 5
  | some v => if v = 0 then 5 else v

/-- `valueSum` of `calculateRubricQuadrant` (App.tsx line 324):
`emotional_needs*0.20 + revenue_impact*0.25` with falsy/absent scores
defaulted to 5. -/
def valueSum (m : RubricScores) : ℚ :=
  dimOr5 m .emotional_needs * 0.20 + dimOr5 m .revenue_impact * 0.25

/-- `effortSum` of `calculateRubricQuadrant` (App.tsx line 325):
`drastic_change*0.15 + pilot_complexity*0.15 + people_build*0.10 +
technology_capex*0.15` with falsy/absent scores defaulted to 5. -/
def effortSum (m : RubricScores) : ℚ :=
  dimOr5 m .drastic_change * 0.15 + dimOr5 m .pilot_complexity * 0.15 +
    dimOr5 m .people_build * 0.10 + dimOr5 m .technology_capex * 0.15

/-- `valueScore` before display rounding (App.tsx line 327). -/
def rawValueScore (m : RubricScores) : ℚ := valueSum m / 0.45

/-- `effortScore` before display rounding (App.tsx line 328). -/
def rawEffortScore (m : RubricScores) : ℚ := effortSum m / 0.55

/-- JS `x.toFixed(1)` for the non-negative scores at hand: round to the
nearest multiple of 1/10 (ties away from zero, which for non-negative input
is rounding half up). -/
def toFixed1 (x : ℚ) : ℚ := (⌊x * 10 + 1/2⌋ : ℤ) / 10

/-- Result record of `calculateRubricQuadrant` (App.tsx line 338). -/
structure RubricResult where
  valueScore : ℚ
  effortScore : ℚ
  quadrant : String
  deriving DecidableEq, Repr

/-- Embedding of `calculateRubricQuadrant` (App.tsx lines 320-339): weighted
value/effort sums over `rubricScores[k] || 5`, normalized by 0.45 and 0.55,
thresholds 6.5 / 6.0, quadrant chosen by the if/else-if chain with default
"Low Priority", and both scores reported via `toFixed(1)`. -/
def calculateRubricQuadrant (m : RubricScores) : RubricResult :=
  let valueScore := rawValueScore m
  let effortScore := rawEffortScore m
  let quadrant :=
    if valueScore ≥ 6.5 ∧ ¬(effortScore ≥ 6.0) then "Quick Wins"
    else if valueScore ≥ 6.5 ∧ effortScore ≥ 6.0 then "Big Bets"
    else if ¬(valueScore ≥ 6.5) ∧ effortScore ≥ 6.0 then "Parking Lot"
    else "Low Priority"
  { valueScore := toFixed1 valueScore
    effortScore := toFixed1 effortScore
    quadrant := quadrant }

/-- Build a total `rubricScores` record from six explicit dimension values. -/
def mkScores (e r d p b t : ℚ) : RubricScores := fun k =>
  match k with
  | .emotional_needs => some e
  | .revenue_impact => some r
  | .drastic_change => some d
  | .pilot_complexity => some p
  | .people_build => some b
  | .technology_capex => some t

/-- The quadrant rule exactly as the spec words it (thresholds 6.5 and 6.0,
four explicit cases), kept separate from the embedded code so the two can be
compared. -/
def quadrantSpec (valueScore effortScore : ℚ) : String :=
  if valueScore ≥ 6.5 ∧ ¬(effortScore ≥ 6.0) then "Quick Wins"
  else if valueScore ≥ 6.5 ∧ effortScore ≥ 6.0 then "Big Bets"
  else if ¬(valueScore ≥ 6.5) ∧ ¬(effortScore ≥ 6.0) then "Low Priority"
  else "Parking Lot"

/-- Replace the value stored at one rubric key (`none` removes the key). -/
def updateScore (m : RubricScores) (k : RubricKey) (v : Option ℚ) : RubricScores :=
  fun k2 => if k2 = k then v else m k2

/-- Embedding of the score-extraction step of `fetchAIRubric` (App.tsx lines
308-313): for every key present in the AI response, the stored value is the JS
expression `val.score || 5`, so a missing or zero `score` field becomes 5 and
every other proposed number is stored verbatim; no range check is applied.
The outer `Option` models whether the key appears in `data.ai_scores` at all,
the inner one whether the entry carries a `score` field. -/
def fetchAIRubricScores (ai : RubricKey → Option (Option ℚ)) : RubricScores :=
  fun k =>
    match ai k with
    | none => none
    | some v =>
      some (match v with
            | none => 5
            | some s => if s = 0 then 5 else s)

/-- Lifecycle states of a fragment (App.tsx status strings `incubating`,
`maturing`, `ready-to-promote`, `promoted`). -/
inductive FragStatus
  | incubating
  | maturing
  | readyToPromote
  | promoted
  deriving DecidableEq, Repr

/-- A comment attached to a fragment (interface `FragmentComment`,
App.tsx lines 68-76; timestamps and per-comment upvotes are omitted as no
claim mentions them). -/
structure FragComment where
  authorName : String
  authorRole : Option String
  content : String
  isBuildingOn : Bool
  deriving DecidableEq, Repr

/-- A fragment aggregate (interface `Fragment`, App.tsx lines 78-91). -/
structure Fragment where
  title : String
  roughThought : String
  comments : List FragComment
  upvotes : ℕ
  maturityScore : ℤ
  status : FragStatus
  promotedIdeaId : Option ℕ
  deriving DecidableEq, Repr

/-- An Idea record as created by promotion: seeded from the fragment text
with midpoint default rubric dimensions. -/
structure Idea where
  id : ℕ
  problemStatement : String
  proposedSolution : String
  emotionalNeeds : ℚ
  revenueImpact : ℚ
  drasticChange : ℚ
  pilotComplexity : ℚ
  peopleBuild : ℚ
  technologyCapex : ℚ
  deriving DecidableEq, Repr

/-- Error taxonomy of the engine. -/
inductive EngineError
  | ValidationError
  | InvalidStateError
  | InsufficientMaturityError
  | AlreadyPromotedError
  deriving DecidableEq, Repr

/-- Modelled from the spec: `scoreForComment` of ScoreCalculator (the backend
scoring service is not under src/; the frontend only labels the checkbox with
"+15 maturity", App.tsx line 2641): +15 for a builds-on comment, +5 for an
ordinary one. -/
def scoreForComment (isBuildingOn : Bool) : ℤ :=
  if isBuildingOn then 15 else 5

/-- Modelled from the spec: `scoreForUpvote` of ScoreCalculator (backend not
under src/): a fixed +2 delta. -/
def scoreForUpvote : ℤ := 2

/-- Modelled from the spec: `clampScore` of ScoreCalculator (backend not
under src/): the running sum of deltas is clamped into [0,100]. -/
def clampScore (raw : ℤ) : ℤ := max 0 (min raw 100)

/-- Modelled from the spec: the score-to-status mapping of FragmentLifecycle
(backend not under src/; the frontend renders the same 40/80 thresholds,
App.tsx lines 2456 and 2581-2588): below 40 incubating, below 80 maturing,
otherwise ready-to-promote. -/
def statusFor (score : ℤ) : FragStatus :=
  if score < 40 then .incubating
  else if score < 80 then .maturing
  else .readyToPromote

/-- Modelled from the spec: a freshly created fragment starts incubating with
score 0 and no comments or upvotes. -/
def freshFragment (title roughThought : String) : Fragment :=
  { title := title
    roughThought := roughThought
    comments := []
    upvotes := 0
    maturityScore := 0
    status := .incubating
    promotedIdeaId := none }

/-- Modelled from the spec: `addComment` of FragmentLifecycle (backend not
under src/; the frontend caller is `addFragmentComment`, App.tsx lines
433-453): rejects empty/whitespace-only content with ValidationError,
otherwise appends the comment, applies the comment delta through the clamp,
and recomputes the status, which the terminal promoted state overrides. -/
def addComment (f : Fragment) (authorName : String) (authorRole : Option String)
    (content : String) (isBuildingOn : Bool) : Except EngineError Fragment :=
  if content.toList.all Char.isWhitespace then .error .ValidationError
  else
    let newScore := clampScore (f.maturityScore + scoreForComment isBuildingOn)
    .ok { f with
          comments := f.comments ++
            [{ authorName := authorName
               authorRole := authorRole
               content := content
               isBuildingOn := isBuildingOn }]
          maturityScore := newScore
          status := if f.status = .promoted then .promoted else statusFor newScore }

/-- Modelled from the spec: `upvote` of FragmentLifecycle (backend not under
src/; the frontend caller is `upvoteFragment`, App.tsx lines 455-464): fails
with InvalidStateError on a promoted fragment, otherwise increments the
counter by one, applies the +2 delta through the clamp, and recomputes the
status. -/
def upvote (f : Fragment) : Except EngineError Fragment :=
  if f.status = .promoted then .error .InvalidStateError
  else
    let newScore := clampScore (f.maturityScore + scoreForUpvote)
    .ok { f with
          upvotes := f.upvotes + 1
          maturityScore := newScore
          status := statusFor newScore }

/-- Modelled from the spec: `promote` of PromotionService (backend not under
src/; the frontend caller is `handlePromote`, App.tsx lines 2522-2528, which
blocks scores below 40 client-side as well): fails with AlreadyPromotedError
on a promoted fragment, with InsufficientMaturityError below score 40, and
otherwise creates the Idea seeded from the fragment text with midpoint
rubric defaults, marks the fragment promoted, and records the back-link. -/
def promote (f : Fragment) (ideaId : ℕ) : Except EngineError (Fragment × Idea) :=
  if f.status = .promoted then .error .AlreadyPromotedError
  else if f.maturityScore < 40 then .error .InsufficientMaturityError
  else
    let idea : Idea :=
      { id := ideaId
        problemStatement := f.title
        proposedSolution := f.roughThought
        emotionalNeeds := 5
        revenueImpact := 5
        drasticChange := 5
        pilotComplexity := 5
        peopleBuild := 5
        technologyCapex := 5 }
    .ok ({ f with status := .promoted, promotedIdeaId := some ideaId }, idea)

/-- One external action on a fragment aggregate. -/
inductive FragOp
  | comment (authorName : String) (authorRole : Option String)
      (content : String) (isBuildingOn : Bool)
  | upvoteOp
  | promoteOp (ideaId : ℕ)
  deriving DecidableEq, Repr

/-- Whether an action is a community engagement action (comment or upvote),
as opposed to a promotion attempt. -/
def FragOp.isEngagement : FragOp → Bool
  | .comment _ _ _ _ => true
  | .upvoteOp => true
  | .promoteOp _ => false

/-- The fragment resulting from an operation: the new aggregate on success,
the old one on failure (all engine errors are local and change no state). -/
def fromResult (f : Fragment) : Except EngineError Fragment → Fragment
  | .ok g => g
  | .error _ => f

/-- Apply one action to a fragment. -/
def applyOp (f : Fragment) : FragOp → Fragment
  | .comment a r c b => fromResult f (addComment f a r c b)
  | .upvoteOp => fromResult f (upvote f)
  | .promoteOp i => fromResult f ((promote f i).map Prod.fst)

/-- Run a sequence of actions from a starting fragment. -/
def runOps (f : Fragment) (ops : List FragOp) : Fragment :=
  ops.foldl applyOp f

/-- A concrete already-promoted fragment, used to instantiate theorems. -/
def promotedSample : Fragment :=
  { freshFragment "promoted title" "promoted thought" with
    maturityScore := 85
    status := .promoted
    promotedIdeaId := some 7 }

/-- A concrete non-promoted fragment at a given maturity score. -/
def fragAt (s : ℤ) : Fragment :=
  { freshFragment "sample title" "sample thought" with
    maturityScore := s
    status := statusFor s }

/-- A concrete AI-advisor response proposing the out-of-range score 15 for
`emotional_needs` and 7 for every other dimension. -/
def aiOutOfRange : RubricKey → Option (Option ℚ) := fun k =>
  match k with
  | .emotional_needs => some (some 15)
  | _ => some (some 7)

/-! ## Helper lemmas -/

/-- The classifier only reads its input through `dimOr5`, so two score
records that agree after defaulting classify identically. -/
lemma calculateRubricQuadrant_congr {m1 m2 : RubricScores}
    (h : ∀ k, dimOr5 m1 k = dimOr5 m2 k) :
    calculateRubricQuadrant m1 = calculateRubricQuadrant m2 := by
  simp only [calculateRubricQuadrant, rawValueScore, rawEffortScore, valueSum,
    effortSum, h]

lemma clampScore_bounds (r : ℤ) : 0 ≤ clampScore r ∧ clampScore r ≤ 100 := by
  unfold clampScore
  omega

lemma clampScore_ge_self (s d : ℤ) (hs : s ≤ 100) (hd : 0 ≤ d) :
    s ≤ clampScore (s + d) := by
  unfold clampScore
  omega

lemma addComment_err (f : Fragment) (a : String) (r : Option String)
    (c : String) (b : Bool) (hc : c.toList.all Char.isWhitespace = true) :
    addComment f a r c b = .error .ValidationError := by
  unfold addComment
  rw [if_pos hc]

lemma addComment_ok (f : Fragment) (a : String) (r : Option String)
    (c : String) (b : Bool) (hc : ¬(c.toList.all Char.isWhitespace = true)) :
    addComment f a r c b =
      .ok { f with
            comments := f.comments ++
              [{ authorName := a, authorRole := r, content := c,
                 isBuildingOn := b }]
            maturityScore := clampScore (f.maturityScore + scoreForComment b)
            status := if f.status = .promoted then .promoted
              else statusFor (clampScore (f.maturityScore + scoreForComment b)) } := by
  unfold addComment
  rw [if_neg hc]

lemma upvote_err (f : Fragment) (hp : f.status = FragStatus.promoted) :
    upvote f = .error .InvalidStateError := by
  unfold upvote
  rw [if_pos hp]

lemma upvote_ok (f : Fragment) (hp : ¬(f.status = FragStatus.promoted)) :
    upvote f =
      .ok { f with
            upvotes := f.upvotes + 1
            maturityScore := clampScore (f.maturityScore + scoreForUpvote)
            status := statusFor (clampScore (f.maturityScore + scoreForUpvote)) } := by
  unfold upvote
  rw [if_neg hp]

lemma promote_already (f : Fragment) (i : ℕ)
    (hp : f.status = FragStatus.promoted) :
    promote f i = .error .AlreadyPromotedError := by
  unfold promote
  rw [if_pos hp]

lemma promote_insufficient (f : Fragment) (i : ℕ)
    (hp : ¬(f.status = FragStatus.promoted)) (hm : f.maturityScore < 40) :
    promote f i = .error .InsufficientMaturityError := by
  unfold promote
  rw [if_neg hp, if_pos hm]

lemma promote_ok (f : Fragment) (i : ℕ)
    (hp : ¬(f.status = FragStatus.promoted)) (hm : ¬(f.maturityScore < 40)) :
    promote f i =
      .ok ({ f with status := .promoted, promotedIdeaId := some i },
        { id := i
          problemStatement := f.title
          proposedSolution := f.roughThought
          emotionalNeeds := 5
          revenueImpact := 5
          drasticChange := 5
          pilotComplexity := 5
          peopleBuild := 5
          technologyCapex := 5 }) := by
  unfold promote
  rw [if_neg hp, if_neg hm]

lemma fromResult_ok (f g : Fragment) : fromResult f (.ok g) = g := rfl

lemma fromResult_err (f : Fragment) (e : EngineError) :
    fromResult f (.error e) = f := rfl

lemma applyOp_comment (f : Fragment) (a : String) (r : Option String)
    (c : String) (b : Bool) :
    applyOp f (.comment a r c b) = fromResult f (addComment f a r c b) := rfl

lemma applyOp_upvote (f : Fragment) :
    applyOp f .upvoteOp = fromResult f (upvote f) := rfl

lemma applyOp_promote (f : Fragment) (i : ℕ) :
    applyOp f (.promoteOp i) = fromResult f ((promote f i).map Prod.fst) := rfl

lemma map_fst_ok (g : Fragment) (idea : Idea) :
    (Except.ok (ε := EngineError) (g, idea)).map Prod.fst = .ok g := rfl

lemma map_fst_err (e : EngineError) :
    (Except.error (α := Fragment × Idea) e).map Prod.fst = .error e := rfl

lemma applyOp_score_mono (f : Fragment) (op : FragOp)
    (h : f.maturityScore ≤ 100) :
    f.maturityScore ≤ (applyOp f op).maturityScore := by
  cases op with
  | comment a r c b =>
    by_cases hc : c.toList.all Char.isWhitespace = true
    · rw [applyOp_comment, addComment_err f a r c b hc, fromResult_err]
    · rw [applyOp_comment, addComment_ok f a r c b hc, fromResult_ok]
      exact clampScore_ge_self _ _ h (by cases b <;> simp [scoreForComment])
  | upvoteOp =>
    by_cases hp : f.status = FragStatus.promoted
    · rw [applyOp_upvote, upvote_err f hp, fromResult_err]
    · rw [applyOp_upvote, upvote_ok f hp, fromResult_ok]
      exact clampScore_ge_self _ _ h (by simp [scoreForUpvote])
  | promoteOp i =>
    by_cases hp : f.status = FragStatus.promoted
    · rw [applyOp_promote, promote_already f i hp, map_fst_err, fromResult_err]
    · by_cases hm : f.maturityScore < 40
      · rw [applyOp_promote, promote_insufficient f i hp hm, map_fst_err, fromResult_err]
      · rw [applyOp_promote, promote_ok f i hp hm, map_fst_ok, fromResult_ok]

lemma applyOp_score_bounds (f : Fragment) (op : FragOp)
    (h : 0 ≤ f.maturityScore ∧ f.maturityScore ≤ 100) :
    0 ≤ (applyOp f op).maturityScore ∧ (applyOp f op).maturityScore ≤ 100 := by
  cases op with
  | comment a r c b =>
    by_cases hc : c.toList.all Char.isWhitespace = true
    · rw [applyOp_comment, addComment_err f a r c b hc, fromResult_err]
      exact h
    · rw [applyOp_comment, addComment_ok f a r c b hc, fromResult_ok]
      exact clampScore_bounds _
  | upvoteOp =>
    by_cases hp : f.status = FragStatus.promoted
    · rw [applyOp_upvote, upvote_err f hp, fromResult_err]
      exact h
    · rw [applyOp_upvote, upvote_ok f hp, fromResult_ok]
      exact clampScore_bounds _
  | promoteOp i =>
    by_cases hp : f.status = FragStatus.promoted
    · rw [applyOp_promote, promote_already f i hp, map_fst_err, fromResult_err]
      exact h
    · by_cases hm : f.maturityScore < 40
      · rw [applyOp_promote, promote_insufficient f i hp hm, map_fst_err, fromResult_err]
        exact h
      · rw [applyOp_promote, promote_ok f i hp hm, map_fst_ok, fromResult_ok]
        exact h

lemma runOps_score_bounds (f : Fragment) (ops : List FragOp)
    (h : 0 ≤ f.maturityScore ∧ f.maturityScore ≤ 100) :
    0 ≤ (runOps f ops).maturityScore ∧ (runOps f ops).maturityScore ≤ 100 := by
  induction ops generalizing f with
  | nil => exact h
  | cons op ops ih => exact ih (applyOp f op) (applyOp_score_bounds f op h)

lemma runOps_append_one (f : Fragment) (ops : List FragOp) (op : FragOp) :
    runOps f (ops ++ [op]) = applyOp (runOps f ops) op := by
  simp [runOps, List.foldl_append]

lemma applyOp_status_inv (f : Fragment) (op : FragOp)
    (h : f.status ≠ FragStatus.promoted → f.status = statusFor f.maturityScore) :
    (applyOp f op).status ≠ FragStatus.promoted →
      (applyOp f op).status = statusFor (applyOp f op).maturityScore := by
  cases op with
  | comment a r c b =>
    by_cases hc : c.toList.all Char.isWhitespace = true
    · rw [applyOp_comment, addComment_err f a r c b hc, fromResult_err]
      exact h
    · rw [applyOp_comment, addComment_ok f a r c b hc, fromResult_ok]
      by_cases hp : f.status = FragStatus.promoted
      · rw [if_pos hp]
        intro hfalse
        exact absurd rfl hfalse
      · rw [if_neg hp]
        intro _
        rfl
  | upvoteOp =>
    by_cases hp : f.status = FragStatus.promoted
    · rw [applyOp_upvote, upvote_err f hp, fromResult_err]
      exact h
    · rw [applyOp_upvote, upvote_ok f hp, fromResult_ok]
      intro _
      rfl
  | promoteOp i =>
    by_cases hp : f.status = FragStatus.promoted
    · rw [applyOp_promote, promote_already f i hp, map_fst_err, fromResult_err]
      exact h
    · by_cases hm : f.maturityScore < 40
      · rw [applyOp_promote, promote_insufficient f i hp hm, map_fst_err, fromResult_err]
        exact h
      · rw [applyOp_promote, promote_ok f i hp hm, map_fst_ok, fromResult_ok]
        intro hfalse
        exact absurd rfl hfalse

lemma runOps_status_inv (f : Fragment) (ops : List FragOp)
    (h : f.status ≠ FragStatus.promoted → f.status = statusFor f.maturityScore) :
    (runOps f ops).status ≠ FragStatus.promoted →
      (runOps f ops).status = statusFor (runOps f ops).maturityScore := by
  induction ops generalizing f with
  | nil => exact h
  | cons op ops ih => exact ih (applyOp f op) (applyOp_status_inv f op h)

/-! ## Claims -/

/-- C1: for every assignment of the six rubric dimension scores in [1,10],
`calculateRubricQuadrant` returns
valueScore = (emotionalNeeds*0.20 + revenueImpact*0.25)/0.45 and
effortScore = (dracticChange*0.15 + pilotComplexity*0.15 + peopleBuild*0.10 +
technologyCapex*0.15)/0.55, each reported to 1 decimal place. -/
theorem calculateRubricQuadrant_score_formulas (e r d p b t : ℚ)
    (he : 1 ≤ e ∧ e ≤ 10) (hr : 1 ≤ r ∧ r ≤ 10) (hd : 1 ≤ d ∧ d ≤ 10)
    (hp : 1 ≤ p ∧ p ≤ 10) (hb : 1 ≤ b ∧ b ≤ 10) (ht : 1 ≤ t ∧ t ≤ 10) :
    (calculateRubricQuadrant (mkScores e r d p b t)).valueScore
        = toFixed1 ((e * 0.20 + r * 0.25) / 0.45)
      ∧ (calculateRubricQuadrant (mkScores e r d p b t)).effortScore
        = toFixed1 ((d * 0.15 + p * 0.15 + b * 0.10 + t * 0.15) / 0.55) := by
  have he0 : e ≠ 0 := ne_of_gt (lt_of_lt_of_le zero_lt_one he.1)
  have hr0 : r ≠ 0 := ne_of_gt (lt_of_lt_of_le zero_lt_one hr.1)
  have hd0 : d ≠ 0 := ne_of_gt (lt_of_lt_of_le zero_lt_one hd.1)
  have hp0 : p ≠ 0 := ne_of_gt (lt_of_lt_of_le zero_lt_one hp.1)
  have hb0 : b ≠ 0 := ne_of_gt (lt_of_lt_of_le zero_lt_one hb.1)
  have ht0 : t ≠ 0 := ne_of_gt (lt_of_lt_of_le zero_lt_one ht.1)
  constructor <;>
    simp [calculateRubricQuadrant, rawValueScore, rawEffortScore, valueSum,
      effortSum, dimOr5, mkScores, he0, hr0, hd0, hp0, hb0, ht0]

/-- C1 witness: value dimensions 8 and effort dimensions 3 give valueScore
8.0 and effortScore 3.0. -/
theorem calculateRubricQuadrant_score_formulas_witness :
    (calculateRubricQuadrant (mkScores 8 8 3 3 3 3)).valueScore = 8
      ∧ (calculateRubricQuadrant (mkScores 8 8 3 3 3 3)).effortScore = 3 := by
  have h := calculateRubricQuadrant_score_formulas 8 8 3 3 3 3
    (by norm_num) (by norm_num) (by norm_num) (by norm_num) (by norm_num)
    (by norm_num)
  refine ⟨?_, ?_⟩
  · rw [h.1]
    simp only [toFixed1]
    norm_num
  · rw [h.2]
    simp only [toFixed1]
    norm_num

/-- C2: the quadrant returned by the classifier is determined from the raw
value/effort scores by highValue = (valueScore ≥ 6.5) and
highEffort = (effortScore ≥ 6.0) exactly as the spec rule `quadrantSpec`
states, and six dimensions of 9 classify as "Big Bets". -/
theorem calculateRubricQuadrant_quadrant_rule :
    (∀ m : RubricScores,
        (calculateRubricQuadrant m).quadrant
          = quadrantSpec (rawValueScore m) (rawEffortScore m))
      ∧ (calculateRubricQuadrant (mkScores 9 9 9 9 9 9)).quadrant = "Big Bets" := by
  constructor
  · intro m
    by_cases hv : rawValueScore m ≥ 6.5 <;> by_cases he : rawEffortScore m ≥ 6.0 <;>
      simp [calculateRubricQuadrant, quadrantSpec, hv, he]
  · simp only [calculateRubricQuadrant, rawValueScore, rawEffortScore, valueSum,
      effortSum, dimOr5, mkScores]
    norm_num

/-- C10: a dimension key that is absent from the input record, or whose value
is 0, is replaced by the midpoint 5, so classification with a 0 score or a
missing key is identical to classification with that dimension set to 5. -/
theorem calculateRubricQuadrant_falsy_default (m : RubricScores) (k : RubricKey) :
    dimOr5 (updateScore m k (some 0)) k = 5
      ∧ dimOr5 (updateScore m k none) k = 5
      ∧ calculateRubricQuadrant (updateScore m k (some 0))
          = calculateRubricQuadrant (updateScore m k (some 5))
      ∧ calculateRubricQuadrant (updateScore m k none)
          = calculateRubricQuadrant (updateScore m k (some 5)) := by
  refine ⟨by simp [dimOr5, updateScore], by simp [dimOr5, updateScore], ?_, ?_⟩
  · apply calculateRubricQuadrant_congr
    intro k2
    by_cases hk : k2 = k <;> simp [dimOr5, updateScore, hk]
  · apply calculateRubricQuadrant_congr
    intro k2
    by_cases hk : k2 = k <;> simp [dimOr5, updateScore, hk]

/-- C3 counterexample: the AI advisor path performs no range validation.
For the concrete response proposing 15 on `emotional_needs`, the stored score
is 15, it is outside [1,10], it is what the classifier consumes through
`dimOr5`, and the resulting raw value score even exceeds the 1-10 scale. -/
theorem fetchAIRubric_no_validation :
    fetchAIRubricScores aiOutOfRange RubricKey.emotional_needs = some 15
      ∧ dimOr5 (fetchAIRubricScores aiOutOfRange) RubricKey.emotional_needs = 15
      ∧ ¬(dimOr5 (fetchAIRubricScores aiOutOfRange) RubricKey.emotional_needs ≤ 10)
      ∧ rawValueScore (fetchAIRubricScores aiOutOfRange) > 10 := by
  refine ⟨?_, ?_, ?_, ?_⟩ <;>
    simp [fetchAIRubricScores, aiOutOfRange, dimOr5, rawValueScore, valueSum] <;>
    norm_num

/-- C3 amended: `fetchAIRubric` stores each non-falsy AI-proposed score
verbatim, with no range check, and `dimOr5` hands that stored value to the
classifier unchanged; only a falsy score field (0 or missing) is replaced,
by the midpoint 5 rather than by clamping. -/
theorem fetchAIRubric_passthrough (ai : RubricKey → Option (Option ℚ))
    (k : RubricKey) (s : ℚ) :
    (ai k = some (some s) → s ≠ 0 →
        fetchAIRubricScores ai k = some s
          ∧ dimOr5 (fetchAIRubricScores ai) k = s)
      ∧ (ai k = some (some 0) → fetchAIRubricScores ai k = some 5)
      ∧ (ai k = some none → fetchAIRubricScores ai k = some 5) := by
  refine ⟨fun hk hs => ?_, fun hk => ?_, fun hk => ?_⟩
  · constructor <;> simp [fetchAIRubricScores, dimOr5, hk, hs]
  · simp [fetchAIRubricScores, hk]
  · simp [fetchAIRubricScores, hk]

/-- C3 amended witness: the out-of-range proposal 15 is stored and consumed
verbatim. -/
theorem fetchAIRubric_passthrough_witness :
    fetchAIRubricScores aiOutOfRange RubricKey.emotional_needs = some 15
      ∧ dimOr5 (fetchAIRubricScores aiOutOfRange) RubricKey.emotional_needs = 15 := by
  have h := fetchAIRubric_passthrough aiOutOfRange RubricKey.emotional_needs 15
  exact h.1 (by simp [aiOutOfRange]) (by norm_num)

/-- C4: promoting a non-promoted fragment with maturityScore below 40 fails
with InsufficientMaturityError and changes no state; with maturityScore of at
least 40 (both the promote-early band [40,80) and the normal path at 80 and
above) it succeeds, marking the fragment promoted with the back-link set. -/
theorem promote_maturity_floor (f : Fragment) (i : ℕ)
    (hnp : f.status ≠ FragStatus.promoted) :
    (f.maturityScore < 40 →
        promote f i = .error .InsufficientMaturityError
          ∧ applyOp f (.promoteOp i) = f)
      ∧ (40 ≤ f.maturityScore →
          ∃ g idea, promote f i = .ok (g, idea)
            ∧ g.status = FragStatus.promoted ∧ g.promotedIdeaId = some i) := by
  constructor
  · intro hm
    refine ⟨promote_insufficient f i hnp hm, ?_⟩
    rw [applyOp_promote, promote_insufficient f i hnp hm, map_fst_err,
      fromResult_err]
  · intro hge
    exact ⟨_, _, promote_ok f i hnp (not_lt.mpr hge), rfl, rfl⟩

/-- C4 witness: score 39 fails with InsufficientMaturityError and leaves the
fragment unchanged; scores 40 and 100 succeed. -/
theorem promote_maturity_floor_witness :
    (promote (fragAt 39) 1 = .error .InsufficientMaturityError
        ∧ applyOp (fragAt 39) (.promoteOp 1) = fragAt 39)
      ∧ (∃ g idea, promote (fragAt 40) 2 = .ok (g, idea))
      ∧ (∃ g idea, promote (fragAt 100) 3 = .ok (g, idea)) := by
  have h39 := promote_maturity_floor (fragAt 39) 1 (by decide)
  have h40 := promote_maturity_floor (fragAt 40) 2 (by decide)
  have h100 := promote_maturity_floor (fragAt 100) 3 (by decide)
  refine ⟨h39.1 (by decide), ?_, ?_⟩
  · obtain ⟨g, idea, hok, _, _⟩ := h40.2 (by decide)
    exact ⟨g, idea, hok⟩
  · obtain ⟨g, idea, hok, _, _⟩ := h100.2 (by decide)
    exact ⟨g, idea, hok⟩

/-- C5: the promoted status is terminal: no operation moves a promoted
fragment out of `promoted` or changes its back-link (the score-to-status
mapping is never applied to it again), and any further promote attempt fails
with AlreadyPromotedError, so no second Idea is created. -/
theorem promoted_is_terminal (f : Fragment) (op : FragOp) (i : ℕ)
    (hp : f.status = FragStatus.promoted) :
    (applyOp f op).status = FragStatus.promoted
      ∧ (applyOp f op).promotedIdeaId = f.promotedIdeaId
      ∧ promote f i = .error .AlreadyPromotedError := by
  have hterm : (applyOp f op).status = FragStatus.promoted
      ∧ (applyOp f op).promotedIdeaId = f.promotedIdeaId := by
    cases op with
    | comment a r c b =>
      by_cases hc : c.toList.all Char.isWhitespace = true
      · rw [applyOp_comment, addComment_err f a r c b hc, fromResult_err]
        exact ⟨hp, rfl⟩
      · rw [applyOp_comment, addComment_ok f a r c b hc, fromResult_ok]
        exact ⟨by simp [hp], rfl⟩
    | upvoteOp =>
      rw [applyOp_upvote, upvote_err f hp, fromResult_err]
      exact ⟨hp, rfl⟩
    | promoteOp j =>
      rw [applyOp_promote, promote_already f j hp, map_fst_err, fromResult_err]
      exact ⟨hp, rfl⟩
  exact ⟨hterm.1, hterm.2, promote_already f i hp⟩

/-- C5 witness: an upvote on an already-promoted fragment leaves it promoted
with its back-link intact, and a duplicate promote attempt fails. -/
theorem promoted_is_terminal_witness :
    (applyOp promotedSample .upvoteOp).status = FragStatus.promoted
      ∧ (applyOp promotedSample .upvoteOp).promotedIdeaId
          = promotedSample.promotedIdeaId
      ∧ promote promotedSample 9 = .error .AlreadyPromotedError :=
  promoted_is_terminal promotedSample .upvoteOp 9 rfl

/-- C6: on every reachable non-promoted fragment, status is exactly the
score-derived state: incubating below 40, maturing in [40,80), and
ready-to-promote at 80 and above. -/
theorem status_matches_score (title rough : String) (ops : List FragOp)
    (hnp : (runOps (freshFragment title rough) ops).status ≠ FragStatus.promoted) :
    ((runOps (freshFragment title rough) ops).maturityScore < 40 →
        (runOps (freshFragment title rough) ops).status = FragStatus.incubating)
      ∧ (40 ≤ (runOps (freshFragment title rough) ops).maturityScore →
          (runOps (freshFragment title rough) ops).maturityScore < 80 →
          (runOps (freshFragment title rough) ops).status = FragStatus.maturing)
      ∧ (80 ≤ (runOps (freshFragment title rough) ops).maturityScore →
          (runOps (freshFragment title rough) ops).status
            = FragStatus.readyToPromote) := by
  have hbase : (freshFragment title rough).status ≠ FragStatus.promoted →
      (freshFragment title rough).status
        = statusFor (freshFragment title rough).maturityScore := by
    intro _
    norm_num [freshFragment, statusFor]
  have hst := runOps_status_inv (freshFragment title rough) ops hbase hnp
  refine ⟨fun h1 => ?_, fun h1 h2 => ?_, fun h1 => ?_⟩
  · rw [hst]
    unfold statusFor
    rw [if_pos h1]
  · rw [hst]
    unfold statusFor
    rw [if_neg (not_lt.mpr h1), if_pos h2]
  · rw [hst]
    unfold statusFor
    rw [if_neg (show ¬((runOps (freshFragment title rough) ops).maturityScore < 40)
        by omega),
      if_neg (show ¬((runOps (freshFragment title rough) ops).maturityScore < 80)
        by omega)]

/-- C6 witness: the empty action sequence leaves a fresh fragment incubating,
consistent with its score 0. -/
theorem status_matches_score_witness :
    (runOps (freshFragment "wt" "wr") []).status = FragStatus.incubating := by
  have h := status_matches_score "wt" "wr" [] (by decide)
  exact h.1 (by decide)

/-- C7: for every sequence of comment and upvote actions on a fresh fragment,
the maturity score never decreases at any step and always stays within
[0,100]. -/
theorem maturity_monotone_bounded (title rough : String) (ops : List FragOp)
    (op : FragOp) (_hops : ∀ o ∈ ops, o.isEngagement = true)
    (_hop : op.isEngagement = true) :
    (runOps (freshFragment title rough) ops).maturityScore
        ≤ (runOps (freshFragment title rough) (ops ++ [op])).maturityScore
      ∧ 0 ≤ (runOps (freshFragment title rough) ops).maturityScore
      ∧ (runOps (freshFragment title rough) ops).maturityScore ≤ 100 := by
  have hb := runOps_score_bounds (freshFragment title rough) ops
    (by norm_num [freshFragment])
  refine ⟨?_, hb.1, hb.2⟩
  rw [runOps_append_one]
  exact applyOp_score_mono _ op hb.2

/-- C7 witness: after one upvote a further upvote cannot lower the score,
which sits in [0,100]. -/
theorem maturity_monotone_bounded_witness :
    (runOps (freshFragment "mx" "my") [FragOp.upvoteOp]).maturityScore
        ≤ (runOps (freshFragment "mx" "my")
            ([FragOp.upvoteOp] ++ [FragOp.upvoteOp])).maturityScore
      ∧ 0 ≤ (runOps (freshFragment "mx" "my") [FragOp.upvoteOp]).maturityScore
      ∧ (runOps (freshFragment "mx" "my") [FragOp.upvoteOp]).maturityScore ≤ 100 :=
  maturity_monotone_bounded "mx" "my" [FragOp.upvoteOp] FragOp.upvoteOp
    (by decide) rfl

/-- C8: a successful addComment applies exactly +15 for a builds-on comment
and exactly +5 otherwise (pre-clamp), and grows the comment sequence by
exactly one. -/
theorem addComment_delta (f : Fragment) (a : String) (r : Option String)
    (c : String) (b : Bool) (g : Fragment)
    (_hnp : f.status ≠ FragStatus.promoted)
    (h : addComment f a r c b = .ok g) :
    scoreForComment b = (if b then 15 else 5)
      ∧ g.maturityScore = clampScore (f.maturityScore + (if b then 15 else 5))
      ∧ g.comments.length = f.comments.length + 1 := by
  by_cases hc : c.toList.all Char.isWhitespace = true
  · rw [addComment_err f a r c b hc] at h
    exact absurd h (by simp)
  · rw [addComment_ok f a r c b hc] at h
    injection h with h2
    subst h2
    refine ⟨rfl, rfl, by simp⟩

/-- C8 witness: a builds-on comment on a fresh fragment adds exactly 15 and
one comment. -/
theorem addComment_delta_witness :
    ∃ g, addComment (freshFragment "ct" "cr") "alice" none "great point" true
        = .ok g
      ∧ scoreForComment true = 15
      ∧ g.maturityScore
          = clampScore ((freshFragment "ct" "cr").maturityScore + 15)
      ∧ g.comments.length = (freshFragment "ct" "cr").comments.length + 1 := by
  have hc : ¬("great point".toList.all Char.isWhitespace = true) := by decide
  have hok := addComment_ok (freshFragment "ct" "cr") "alice" none "great point"
    true hc
  have h := addComment_delta (freshFragment "ct" "cr") "alice" none "great point"
    true _ (by decide) hok
  exact ⟨_, hok, h.1, by simpa using h.2.1, by simp [h.2.2]⟩

/-- C9: an upvote on a promoted fragment fails with InvalidStateError and
leaves the fragment unchanged; on any non-promoted fragment it increments the
upvote counter by exactly 1 and the score by exactly 2 (pre-clamp). -/
theorem upvote_rules (f : Fragment) :
    (f.status = FragStatus.promoted →
        upvote f = .error .InvalidStateError ∧ applyOp f .upvoteOp = f)
      ∧ (f.status ≠ FragStatus.promoted →
          ∃ g, upvote f = .ok g
            ∧ g.upvotes = f.upvotes + 1
            ∧ g.maturityScore = clampScore (f.maturityScore + 2)) := by
  constructor
  · intro hp
    refine ⟨upvote_err f hp, ?_⟩
    rw [applyOp_upvote, upvote_err f hp, fromResult_err]
  · intro hp
    exact ⟨_, upvote_ok f hp, rfl, rfl⟩

/-- C9 witness: an upvote on the promoted sample fragment is rejected without
state change, and an upvote on a score-10 fragment adds one upvote and two
score points. -/
theorem upvote_rules_witness :
    (upvote promotedSample = .error .InvalidStateError
        ∧ applyOp promotedSample .upvoteOp = promotedSample)
      ∧ ∃ g, upvote (fragAt 10) = .ok g
          ∧ g.upvotes = (fragAt 10).upvotes + 1
          ∧ g.maturityScore = clampScore ((fragAt 10).maturityScore + 2) :=
  ⟨(upvote_rules promotedSample).1 rfl,
   (upvote_rules (fragAt 10)).2 (by decide)⟩

end Innovate
